import Mathlib

/-!
Shallow embedding of the source ingestion module of svr_source_manager:
src/services/source_processor/app/video_processing.py together with the
configuration it reads from src/common/config.py.  Python integers are
modelled as Int or Nat, Python floats as Rat, and the effects that matter
to the verified properties (files on disk, reports to the core api) as
explicit result fields.
-/

namespace SVR

/-- Python int(x) truncates toward zero. -/
def pyInt (q : ℚ) : ℤ := if 0 ≤ q then ⌊q⌋ else ⌈q⌉

/-- Python round(x) rounds half to even. -/
def pyRound (q : ℚ) : ℤ :=
  if q - ⌊q⌋ < 1 / 2 then ⌊q⌋
  else if 1 / 2 < q - ⌊q⌋ then ⌊q⌋ + 1
  else if ⌊q⌋ % 2 = 0 then ⌊q⌋ else ⌊q⌋ + 1

/-- VideoSettings defaults from src/common/config.py, the settings module
that video_processing.py imports. -/
def settings_video_chunk_duration : ℚ := 60

/-- VideoSettings.chunk_fps default from src/common/config.py. -/
def settings_video_chunk_fps : ℚ := 1

/-- VideoSettings.capture_max_retries from src/common/config.py. -/
def settings_video_capture_max_retries : ℕ := 3

/-- VideoSettings.capture_retries_interval from src/common/config.py. -/
def settings_video_capture_retries_interval : ℚ := 1 / 10

/-- SourceStatus from src/common/constants.py. -/
inductive SourceStatus
  | active
  | paused
  | finished
  | error
  deriving DecidableEq

/-- VIDEO_EXTENSIONS from video_processing.py. -/
def VIDEO_EXTENSIONS : List String := ["mp4", "avi"]

/-- STREAM_EXTENSIONS from video_processing.py. -/
def STREAM_EXTENSIONS : List String := ["mjpg"]

/-- IMAGE_EXTENSIONS from video_processing.py. -/
def IMAGE_EXTENSIONS : List String := ["png", "jpg", "jpeg"]

/-- The three capture variants a url can be classified into. -/
inductive CaptureKind
  | stream
  | video
  | image
  deriving DecidableEq

deriving instance DecidableEq for Except

/-- Python str.split with a one-character separator: every occurrence of
the separator cuts, empty pieces are kept, the empty string splits to one
empty piece. -/
def splitOnChar (c : Char) : List Char → List (List Char)
  | [] => [[]]
  | x :: xs =>
    let r := splitOnChar c xs
    if x = c then [] :: r
    else
      match r with
      | [] => [[x]]
      | y :: ys => (x :: y) :: ys

/-- The extension computation inside open_source: lowercase the url, keep
what precedes the first question mark, and take the piece after the last
dot.  Python: url.lower().split on question mark, index 0, split on dot,
index minus one. -/
def url_extension (url : String) : String :=
  let lowered := url.data.map Char.toLower
  let beforeQuery := (splitOnChar (Char.ofNat 63) lowered).headD []
  String.mk ((splitOnChar (Char.ofNat 46) beforeQuery).getLastD [])

/-- open_source from video_processing.py: classify the url by its
extension into a capture variant, or fail for an unknown extension.  The
variant constructors only store the url; no endpoint is contacted here. -/
def open_source (url : String) : Except String CaptureKind :=
  if url_extension url ∈ STREAM_EXTENSIONS then Except.ok CaptureKind.stream
  else if url_extension url ∈ VIDEO_EXTENSIONS then Except.ok CaptureKind.video
  else if url_extension url ∈ IMAGE_EXTENSIONS then Except.ok CaptureKind.image
  else Except.error "Unknown source extension"

/-- The skip computation in the VideoCapture aenter:
max(0, int(native fps divided by settings.video.chunk_fps) - 1). -/
def skip_frames_of (native_fps chunk_fps : ℚ) : ℤ :=
  max 0 (pyInt (native_fps / chunk_fps) - 1)

/-- Runtime state of a VideoCapture: cumulative frames read, frame total
of the file, and the skip factor fixed at open time. -/
structure VidState where
  frames_read : ℤ
  frames_total : ℤ
  skip_frames : ℤ
  deriving DecidableEq

/-- VideoCapture aenter for a file that opens with the given native fps
and frame count. -/
def vidOpen (native_fps chunk_fps : ℚ) (frames_total : ℤ) : VidState :=
  { frames_read := 0
    frames_total := frames_total
    skip_frames := skip_frames_of native_fps chunk_fps }

/-- has_next of VideoCapture: frames_read < frames_total. -/
def VidState.has_next (s : VidState) : Bool := s.frames_read < s.frames_total

/-- Cursor update of VideoCapture.read: frames_read increases by one, and
by the skip factor more when that factor is nonzero.  The seek of the
underlying cv2 handle is outside the model. -/
def vidRead (s : VidState) : VidState :=
  if s.skip_frames ≠ 0 then
    { s with frames_read := s.frames_read + 1 + s.skip_frames }
  else
    { s with frames_read := s.frames_read + 1 }

/-- VideoCapture.read together with the success flag of the underlying
cv2 read: the cursor advances the same way whether or not a frame came
back, and on failure the Python code raises after having advanced. -/
def vidReadStep (ret : Bool) (s : VidState) : Except String Unit × VidState :=
  (if ret then Except.ok () else Except.error "Can not read next frame", vidRead s)

/-- Iterated reads; the success flags do not matter for the cursor. -/
def vidReadN : ℕ → VidState → VidState
  | 0, s => s
  | n + 1, s => vidReadN n (vidRead s)

/-- The frames-per-chunk computation in SourceProcessor process:
int(fps times duration). -/
def number_of_frames (chunk_fps chunk_duration : ℚ) : ℤ :=
  pyInt (chunk_fps * chunk_duration)

/-- The hardcoded attempt bound of the loop in StreamCapture.read. -/
def streamAttempts : ℕ := 5

/-- The attempt loop of StreamCapture.read, with attempt k standing for
the outcome of the k-th fetch and parse pass: some frame when a
well-formed payload was found, none when the pass fell through.  Returns
the result and the number of attempts made. -/
def streamReadAux (attempt : ℕ → Option ℕ) : ℕ → ℕ → Option ℕ × ℕ
  | 0, made => (none, made)
  | fuel + 1, made =>
    match attempt made with
    | some f => (some f, made + 1)
    | none => streamReadAux attempt fuel (made + 1)

/-- StreamCapture.read: up to streamAttempts passes, then raise. -/
def streamRead (attempt : ℕ → Option ℕ) : Except String ℕ × ℕ :=
  match streamReadAux attempt streamAttempts 0 with
  | (some f, made) => (Except.ok f, made)
  | (none, made) => (Except.error "Can not read next frame", made)

/-- The VideoChunkCreate record built in the ChunkWriter aexit. -/
structure VideoChunkCreate where
  source_id : ℤ
  file_path : String
  start_time : ℚ
  end_time : ℚ
  n_frames : ℕ
  deriving DecidableEq

/-- Runtime state of a ChunkWriter between aenter and aexit. -/
structure ChunkWriterState where
  source_id : ℤ
  path : String
  start_time : ℚ
  n_frames : ℕ
  deriving DecidableEq

/-- ChunkWriter aenter: the VideoWriter enter sets n_frames to zero. -/
def chunkAenter (source_id : ℤ) (path : String) (start_time : ℚ) : ChunkWriterState :=
  { source_id := source_id, path := path, start_time := start_time, n_frames := 0 }

/-- VideoWriter.write: append one frame, increment the counter. -/
def ChunkWriterState.write (w : ChunkWriterState) : ChunkWriterState :=
  { w with n_frames := w.n_frames + 1 }

/-- N write calls in a row. -/
def writesN : ℕ → ChunkWriterState → ChunkWriterState
  | 0, w => w
  | n + 1, w => writesN n w.write

/-- Outcome of closing a ChunkWriter: whether the artifact is still on
disk, and the chunk reported to the core api, none when nothing was
reported. -/
structure ChunkCloseResult where
  file_kept : Bool
  reported : Option VideoChunkCreate
  deriving DecidableEq

/-- ChunkWriter aexit: the VideoWriter exit releases the handle and
unlinks the file exactly when n_frames equals zero; the chunk is then
reported exactly when no exception is propagating and n_frames is
positive. -/
def chunkAexit (excRaised : Bool) (end_time : ℚ) (w : ChunkWriterState) : ChunkCloseResult :=
  { file_kept := if w.n_frames = 0 then false else true
    reported :=
      if excRaised = false ∧ 0 < w.n_frames then
        some { source_id := w.source_id, file_path := w.path,
               start_time := w.start_time, end_time := end_time,
               n_frames := w.n_frames }
      else none }

/-- The ways the processing loop of SourceProcessor process can end. -/
inductive LoopEnd
  | completed
  | cancelled
  | failed (msg : String)
  deriving DecidableEq

/-- Status reporting at the end of SourceProcessor process: the status
variable starts as FINISHED, the CancelledError handler returns before
any report, any other exception switches the status to ERROR with the
message, and the surviving status is sent to update_source_status. -/
def processReport : LoopEnd → Option (SourceStatus × String)
  | LoopEnd.cancelled => none
  | LoopEnd.completed => some (SourceStatus.finished, "")
  | LoopEnd.failed msg => some (SourceStatus.error, msg)

/-- The fields of a Source that the scheduler uses. -/
structure Source where
  id : ℤ
  url : String
  deriving DecidableEq

/-- SourceProcessor: the dictionary of running tasks is modelled by the
list of its keys, newest first, plus the is_running flag. -/
structure SourceProcessor where
  tasks : List ℤ
  is_running : Bool
  deriving DecidableEq

/-- SourceProcessor construction: empty task map, not running. -/
def SourceProcessor.init : SourceProcessor := { tasks := [], is_running := false }

/-- SourceProcessor.add: spawn a task unless the id is already tracked.
The Bool records whether a new task was spawned. -/
def SourceProcessor.add (p : SourceProcessor) (s : Source) : SourceProcessor × Bool :=
  if s.id ∈ p.tasks then (p, false)
  else ({ p with tasks := s.id :: p.tasks }, true)

/-- SourceProcessor.remove: cancel the task and await it; the awaited
task pops its own id from the map in its CancelledError handler.  An
untracked id is left alone. -/
def SourceProcessor.remove (p : SourceProcessor) (i : ℤ) : SourceProcessor :=
  if i ∈ p.tasks then { p with tasks := p.tasks.erase i } else p

/-- SourceProcessor.startup: add every active source, then mark the
processor as running. -/
def SourceProcessor.startup (p : SourceProcessor) (active : List Source) : SourceProcessor :=
  let q := active.foldl (fun q s => (q.add s).1) p
  { q with is_running := true }

/-- SourceProcessor.shutdown: cancel every task and gather them; each
cancelled task pops itself, so the map drains, and is_running is cleared
afterwards. -/
def SourceProcessor.shutdown (_p : SourceProcessor) : SourceProcessor :=
  { tasks := [], is_running := false }

/-! ## Shared lemmas -/

theorem pyInt_of_nonneg (q : ℚ) (h : 0 ≤ q) : pyInt q = ⌊q⌋ := if_pos h

theorem writesN_n_frames (n : ℕ) (w : ChunkWriterState) :
    (writesN n w).n_frames = w.n_frames + n := by
  induction n generalizing w with
  | zero => rfl
  | succ k ih =>
    show (writesN k w.write).n_frames = w.n_frames + (k + 1)
    rw [ih]
    simp [ChunkWriterState.write]
    omega

theorem vidRead_frames_read (s : VidState) :
    (vidRead s).frames_read = s.frames_read + 1 + s.skip_frames := by
  unfold vidRead
  split_ifs with h
  · rfl
  · have h0 : s.skip_frames = 0 := not_not.mp h
    simp [h0]

theorem vidRead_frames_total (s : VidState) :
    (vidRead s).frames_total = s.frames_total := by
  unfold vidRead
  split_ifs <;> rfl

theorem vidRead_skip_frames (s : VidState) :
    (vidRead s).skip_frames = s.skip_frames := by
  unfold vidRead
  split_ifs <;> rfl

theorem vidReadN_ge (n : ℕ) (s : VidState) (h : 0 ≤ s.skip_frames) :
    s.frames_read + (n : ℤ) ≤ (vidReadN n s).frames_read ∧
    (vidReadN n s).frames_total = s.frames_total := by
  induction n generalizing s with
  | zero => exact ⟨by simp [vidReadN], rfl⟩
  | succ k ih =>
    have hs : 0 ≤ (vidRead s).skip_frames := by
      rw [vidRead_skip_frames]
      exact h
    obtain ⟨h1, h2⟩ := ih (vidRead s) hs
    have h3 : (vidRead s).frames_read = s.frames_read + 1 + s.skip_frames :=
      vidRead_frames_read s
    constructor
    · show s.frames_read + ((k : ℤ) + 1) ≤ (vidReadN k (vidRead s)).frames_read
      omega
    · show (vidReadN k (vidRead s)).frames_total = s.frames_total
      rw [h2, vidRead_frames_total]

theorem streamReadAux_allFail (attempt : ℕ → Option ℕ) (h : ∀ k, attempt k = none)
    (fuel : ℕ) : ∀ made : ℕ, streamReadAux attempt fuel made = (none, made + fuel) := by
  induction fuel with
  | zero => intro made; rfl
  | succ k ih =>
    intro made
    simp only [streamReadAux, h]
    rw [ih]
    have hm : made + 1 + k = made + (k + 1) := by omega
    rw [hm]

theorem streamRead_allFail (attempt : ℕ → Option ℕ) (h : ∀ k, attempt k = none) :
    streamRead attempt = (Except.error "Can not read next frame", streamAttempts) := by
  unfold streamRead
  rw [streamReadAux_allFail attempt h]
  rfl

theorem floor_three_halves : ⌊(3 : ℚ) / 2⌋ = 1 := by
  rw [Int.floor_eq_iff]
  norm_num

theorem pyInt_three_halves : pyInt ((3 : ℚ) / 2) = 1 := by
  rw [pyInt_of_nonneg ((3 : ℚ) / 2) (by norm_num), floor_three_halves]

theorem pyRound_three_halves : pyRound ((3 : ℚ) / 2) = 2 := by
  unfold pyRound
  rw [floor_three_halves]
  norm_num

theorem skip_frames_three_two : skip_frames_of 3 2 = 0 := by
  unfold skip_frames_of
  rw [pyInt_three_halves]
  norm_num

theorem skip_frames_thirty_one : skip_frames_of 30 1 = 29 := by
  unfold skip_frames_of
  rw [pyInt_of_nonneg ((30 : ℚ) / 1) (by norm_num)]
  have h : ⌊(30 : ℚ) / 1⌋ = 30 := by
    rw [Int.floor_eq_iff]
    norm_num
  rw [h, max_eq_right (by norm_num : (0 : ℤ) ≤ 30 - 1)]
  norm_num

/-! ## Claims -/

/-- C1 counterexample: a ChunkWriter whose writing block raised after one
write keeps its artifact on disk, because the VideoWriter exit unlinks the
file only when n_frames equals zero; nothing is reported. -/
theorem C1_counterexample :
    (chunkAexit true 1 (writesN 1 (chunkAenter 1 "0.mp4" 0))).file_kept = true ∧
    (chunkAexit true 1 (writesN 1 (chunkAenter 1 "0.mp4" 0))).reported = none := by
  constructor <;> rfl

/-- C1 (amended): when the writing block raised after N > 0 frames were
written, closing the writer reports no Chunk, but the artifact is not
deleted: it is unlinked only in the zero-frame case, so after N > 0
writes it remains on disk. -/
theorem C1_amended (N : ℕ) (hN : 0 < N) (sid : ℤ) (p : String) (st et : ℚ) :
    (chunkAexit true et (writesN N (chunkAenter sid p st))).reported = none ∧
    (chunkAexit true et (writesN N (chunkAenter sid p st))).file_kept = true := by
  have hn : (writesN N (chunkAenter sid p st)).n_frames = N := by
    rw [writesN_n_frames]
    simp [chunkAenter]
  constructor
  · simp [chunkAexit]
  · simp [chunkAexit, hn, Nat.pos_iff_ne_zero.mp hN]

/-- C1 witness at N = 1. -/
theorem C1_witness :
    (chunkAexit true 2 (writesN 1 (chunkAenter 1 "1.mp4" 1))).reported = none ∧
    (chunkAexit true 2 (writesN 1 (chunkAenter 1 "1.mp4" 1))).file_kept = true :=
  C1_amended 1 (by decide) 1 "1.mp4" 1 2

/-- C2 counterexample: a unit of work that ends because cancellation was
requested reports no status at all; in particular no PAUSED report is
made.  The CancelledError handler of SourceProcessor process returns
before update_source_status is reached. -/
theorem C2_counterexample : processReport LoopEnd.cancelled = none := rfl

/-- C2 (amended): a unit of work ending in cancellation reports no status
at all, whether the cancellation came from remove or from shutdown; in
particular cancellation never yields an ERROR report.  Natural completion
reports FINISHED with an empty message and an exception reports ERROR
with its message. -/
theorem C2_amended :
    processReport LoopEnd.cancelled = none ∧
    processReport LoopEnd.completed = some (SourceStatus.finished, "") ∧
    ∀ msg, processReport (LoopEnd.failed msg) = some (SourceStatus.error, msg) :=
  ⟨rfl, rfl, fun _ => rfl⟩

/-- C3 counterexample: against an always-failing endpoint a single stream
read makes five attempts, the bound hardcoded in the read loop, while the
configured capture_max_retries is three and is never consulted. -/
theorem C3_counterexample :
    (streamRead (fun _ => none)).2 = 5 ∧ settings_video_capture_max_retries = 3 := by
  constructor <;> rfl

/-- C3 (amended): for a source whose stream endpoint always fails, one
read call makes exactly streamAttempts = 5 fetch attempts, a constant of
the read loop rather than the configured capture_max_retries = 3, and
raises the read-failure message; the unit of work then ends in ERROR with
that message, and the chunk being written is discarded with no report. -/
theorem C3_amended (attempt : ℕ → Option ℕ) (h : ∀ k, attempt k = none)
    (sid : ℤ) (p : String) (st et : ℚ) :
    streamRead attempt = (Except.error "Can not read next frame", streamAttempts) ∧
    streamAttempts = 5 ∧
    processReport (LoopEnd.failed "Can not read next frame") =
      some (SourceStatus.error, "Can not read next frame") ∧
    (chunkAexit true et (chunkAenter sid p st)).reported = none ∧
    (chunkAexit true et (chunkAenter sid p st)).file_kept = false := by
  refine ⟨streamRead_allFail attempt h, rfl, rfl, ?_, ?_⟩ <;>
    simp [chunkAexit, chunkAenter]

/-- C3 witness with the constantly failing attempt function. -/
theorem C3_witness :
    streamRead (fun _ => none) = (Except.error "Can not read next frame", streamAttempts) ∧
    streamAttempts = 5 ∧
    processReport (LoopEnd.failed "Can not read next frame") =
      some (SourceStatus.error, "Can not read next frame") ∧
    (chunkAexit true 1 (chunkAenter 1 "0.mp4" 0)).reported = none ∧
    (chunkAexit true 1 (chunkAenter 1 "0.mp4" 0)).file_kept = false :=
  C3_amended (fun _ => none) (fun _ => rfl) 1 "0.mp4" 0 1

/-- C4: a ChunkWriter that received zero write calls deletes its artifact
and reports nothing, on the clean path and on the error path alike, and
in general a reported chunk always has a positive frame count. -/
theorem C4_zero_writes (excRaised : Bool) (sid : ℤ) (p : String) (st et : ℚ) :
    (chunkAexit excRaised et (chunkAenter sid p st)).file_kept = false ∧
    (chunkAexit excRaised et (chunkAenter sid p st)).reported = none ∧
    ∀ (w : ChunkWriterState) (c : VideoChunkCreate),
      (chunkAexit excRaised et w).reported = some c → 0 < c.n_frames := by
  refine ⟨by simp [chunkAexit, chunkAenter], by simp [chunkAexit, chunkAenter], ?_⟩
  intro w c hc
  simp only [chunkAexit] at hc
  split at hc
  · rename_i hcond
    injection hc with h2
    rw [← h2]
    exact hcond.2
  · exact Option.noConfusion hc

/-- C5 counterexample: native fps 3, target fps 2.  The code computes the
skip with int truncation, so the factor is 0 and a read advances the
cursor by 1 native frame, while round of three halves is 2; the claimed
real-valued formula for the factor gives one half, not 0. -/
theorem C5_counterexample :
    skip_frames_of 3 2 = 0 ∧
    (vidRead (vidOpen 3 2 600)).frames_read = 1 ∧
    pyRound (3 / 2) = 2 ∧
    (vidRead (vidOpen 3 2 600)).frames_read - (vidOpen 3 2 600).frames_read ≠ pyRound (3 / 2) ∧
    (skip_frames_of 3 2 : ℚ) ≠ max 0 (3 / 2 - 1) := by
  have h2 : (vidRead (vidOpen 3 2 600)).frames_read = 1 := by
    rw [vidRead_frames_read]
    simp [vidOpen, skip_frames_three_two]
  refine ⟨skip_frames_three_two, h2, pyRound_three_halves, ?_, ?_⟩
  · rw [h2, pyRound_three_halves]
    norm_num [vidOpen]
  · rw [skip_frames_three_two, max_eq_right (by norm_num : (0 : ℚ) ≤ 3 / 2 - 1)]
    norm_num

/-- C5 (amended): for a file capture with native fps F and target fps T,
both positive, the frame-skip factor is max(0, trunc(F divided by T) - 1)
and each read advances the cursor by exactly 1 + skip, which equals
max(1, floor(F divided by T)) native frames: truncation of the ratio, not
rounding to nearest.  For F = 30, T = 1 this is the 29-frame skip of the
spec example. -/
theorem C5_amended (F T : ℚ) (hF : 0 < F) (hT : 0 < T) (s : VidState)
    (hs : s.skip_frames = skip_frames_of F T) :
    skip_frames_of F T = max 0 (⌊F / T⌋ - 1) ∧
    (vidRead s).frames_read = s.frames_read + max 1 ⌊F / T⌋ := by
  have hq : (0 : ℚ) ≤ F / T := le_of_lt (div_pos hF hT)
  have h1 : skip_frames_of F T = max 0 (⌊F / T⌋ - 1) := by
    unfold skip_frames_of
    rw [pyInt_of_nonneg _ hq]
  refine ⟨h1, ?_⟩
  rw [vidRead_frames_read, hs, h1]
  rcases le_total (⌊F / T⌋) 1 with h2 | h2
  · rw [max_eq_left (by omega : ⌊F / T⌋ - 1 ≤ 0), max_eq_left h2]
    ring
  · rw [max_eq_right (by omega : (0 : ℤ) ≤ ⌊F / T⌋ - 1), max_eq_right h2]
    ring

/-- C5 witness at F = 30, T = 1. -/
theorem C5_witness :
    skip_frames_of 30 1 = max 0 (⌊(30 : ℚ) / 1⌋ - 1) ∧
    (vidRead (vidOpen 30 1 600)).frames_read =
      (vidOpen 30 1 600).frames_read + max 1 ⌊(30 : ℚ) / 1⌋ :=
  C5_amended 30 1 (by norm_num) (by norm_num) (vidOpen 30 1 600) rfl

/-- C6 counterexample: at target fps three halves and duration 1 the code
computes int of the product, 1, while round would give 2. -/
theorem C6_counterexample :
    number_of_frames (3 / 2) 1 = 1 ∧ pyRound (3 / 2 * 1) = 2 ∧
    number_of_frames (3 / 2) 1 ≠ pyRound (3 / 2 * 1) := by
  have hprod : (3 : ℚ) / 2 * 1 = 3 / 2 := by norm_num
  have h1 : number_of_frames (3 / 2) 1 = 1 := by
    unfold number_of_frames
    rw [hprod, pyInt_three_halves]
  have h2 : pyRound ((3 : ℚ) / 2 * 1) = 2 := by
    rw [hprod, pyRound_three_halves]
  refine ⟨h1, h2, ?_⟩
  rw [h1, h2]
  norm_num

/-- C6 (amended): the frames-per-chunk count is the truncation of
target_fps times chunk_duration: for positive inputs it is the unique
integer n with n less or equal the product and the product below n + 1,
not the nearest-integer rounding the claim states. -/
theorem C6_amended (fps duration : ℚ) (hf : 0 < fps) (hd : 0 < duration) :
    (number_of_frames fps duration : ℚ) ≤ fps * duration ∧
    fps * duration < (number_of_frames fps duration : ℚ) + 1 := by
  have hq : (0 : ℚ) ≤ fps * duration := le_of_lt (mul_pos hf hd)
  unfold number_of_frames
  rw [pyInt_of_nonneg _ hq]
  exact ⟨Int.floor_le _, Int.lt_floor_add_one _⟩

/-- C6 witness at the configured defaults fps 1, duration 60. -/
theorem C6_witness :
    (number_of_frames 1 60 : ℚ) ≤ 1 * 60 ∧ 1 * 60 < (number_of_frames 1 60 : ℚ) + 1 :=
  C6_amended 1 60 (by norm_num) (by norm_num)

/-- C7: add on an already tracked id leaves the map unchanged and spawns
no second task, remove on an untracked id is a no-op, both operations
preserve the one-task-per-id invariant of the task map, remove is
idempotent, and shutdown is idempotent. -/
theorem C7_scheduler (p : SourceProcessor) (s : Source) (i : ℤ) :
    (s.id ∈ p.tasks → p.add s = (p, false)) ∧
    (i ∉ p.tasks → p.remove i = p) ∧
    (p.tasks.Nodup →
      (p.add s).1.tasks.Nodup ∧ (p.remove i).tasks.Nodup ∧
        (p.remove i).remove i = p.remove i) ∧
    p.shutdown.shutdown = p.shutdown := by
  refine ⟨fun h => ?_, fun h => ?_, fun h => ⟨?_, ?_, ?_⟩, rfl⟩
  · simp [SourceProcessor.add, h]
  · simp [SourceProcessor.remove, h]
  · unfold SourceProcessor.add
    split_ifs with h1
    · exact h
    · exact List.nodup_cons.mpr ⟨h1, h⟩
  · unfold SourceProcessor.remove
    split_ifs with h1
    · exact h.erase i
    · exact h
  · by_cases h1 : i ∈ p.tasks
    · have h2 : i ∉ p.tasks.erase i := fun hmem =>
        ((List.Nodup.mem_erase_iff h).mp hmem).1 rfl
      simp [SourceProcessor.remove, h1, h2]
    · simp [SourceProcessor.remove, h1]

/-- C7 witness: a tracked id is not re-added and an untracked id is not
removed, on a concrete processor state. -/
theorem C7_witness :
    (SourceProcessor.add { tasks := [1], is_running := true }
        { id := 1, url := "a.mp4" } =
      ({ tasks := [1], is_running := true }, false)) ∧
    SourceProcessor.remove { tasks := [1], is_running := true } 5 =
      { tasks := [1], is_running := true } :=
  ⟨(C7_scheduler { tasks := [1], is_running := true } { id := 1, url := "a.mp4" } 5).1
      (by decide),
    (C7_scheduler { tasks := [1], is_running := true } { id := 1, url := "a.mp4" } 5).2.1
      (by decide)⟩

/-- C8 counterexample: right after shutdown, add spawns a task again,
even for the very id that was just cancelled, because add never consults
is_running. -/
theorem C8_counterexample :
    ((SourceProcessor.shutdown { tasks := [7], is_running := true }).add
      { id := 7, url := "http://example.com/video.mjpg" }).2 = true := by
  simp [SourceProcessor.shutdown, SourceProcessor.add]

/-- C8 (amended): shutdown cancels and awaits every tracked unit of work,
so the tracked set is empty afterwards, clears is_running, and is
idempotent; but add does not consult is_running, so a subsequent add does
spawn a new unit of work. -/
theorem C8_amended (p : SourceProcessor) (s : Source) :
    p.shutdown.tasks = [] ∧
    p.shutdown.is_running = false ∧
    p.shutdown.shutdown = p.shutdown ∧
    (p.shutdown.add s).2 = true := by
  refine ⟨rfl, rfl, rfl, ?_⟩
  simp [SourceProcessor.add, SourceProcessor.shutdown]

/-- C9: a file-capture read advances the cumulative cursor by 1 plus the
skip factor whether the underlying read succeeded or failed, and with a
nonnegative skip factor enough reads, failing or not, drive has_next to
false on a finite file. -/
theorem C9_cursor (s : VidState) (ret : Bool) (n : ℕ)
    (hskip : 0 ≤ s.skip_frames) (hn : s.frames_total ≤ s.frames_read + (n : ℤ)) :
    (vidReadStep ret s).2.frames_read = s.frames_read + 1 + s.skip_frames ∧
    (vidReadN n s).has_next = false := by
  constructor
  · exact vidRead_frames_read s
  · obtain ⟨h1, h2⟩ := vidReadN_ge n s hskip
    simp only [VidState.has_next, h2, decide_eq_false_iff_not, not_lt]
    omega

/-- C9 witness: a 600-frame file at native fps 30, target fps 1; 600
reads exhaust it. -/
theorem C9_witness :
    (vidReadStep false (vidOpen 30 1 600)).2.frames_read =
      (vidOpen 30 1 600).frames_read + 1 + (vidOpen 30 1 600).skip_frames ∧
    (vidReadN 600 (vidOpen 30 1 600)).has_next = false :=
  C9_cursor (vidOpen 30 1 600) false 600
    (by norm_num [vidOpen, skip_frames_thirty_one])
    (by norm_num [vidOpen])

/-- C10: open_source classifies a url solely through its computed
extension, the piece after the last dot of the lowercased url with the
query suffix removed: stream exactly for mjpg, video exactly for mp4 or
avi, image exactly for png, jpg or jpeg, and the unknown-source error for
every other extension. -/
theorem C10_classification (url : String) :
    (∀ u2, url_extension u2 = url_extension url → open_source u2 = open_source url) ∧
    (open_source url = Except.ok CaptureKind.stream ↔ url_extension url = "mjpg") ∧
    (open_source url = Except.ok CaptureKind.video ↔
      (url_extension url = "mp4" ∨ url_extension url = "avi")) ∧
    (open_source url = Except.ok CaptureKind.image ↔
      (url_extension url = "png" ∨ url_extension url = "jpg" ∨
        url_extension url = "jpeg")) ∧
    (url_extension url ∉ STREAM_EXTENSIONS ++ VIDEO_EXTENSIONS ++ IMAGE_EXTENSIONS →
      open_source url = Except.error "Unknown source extension") := by
  have hdet : ∀ u2, url_extension u2 = url_extension url →
      open_source u2 = open_source url := by
    intro u2 h
    unfold open_source
    rw [h]
  refine ⟨hdet, ?_⟩
  unfold open_source
  generalize url_extension url = e
  by_cases h1 : e = "mjpg"
  · subst h1; decide
  · by_cases h2 : e = "mp4"
    · subst h2; decide
    · by_cases h3 : e = "avi"
      · subst h3; decide
      · by_cases h4 : e = "png"
        · subst h4; decide
        · by_cases h5 : e = "jpg"
          · subst h5; decide
          · by_cases h6 : e = "jpeg"
            · subst h6; decide
            · simp [STREAM_EXTENSIONS, VIDEO_EXTENSIONS, IMAGE_EXTENSIONS,
                h1, h2, h3, h4, h5, h6]

/-- Sanity checks of the classification on concrete urls, including the
lowercasing and the stripping of the query suffix before the dot split. -/
theorem open_source_checks :
    open_source "http://example.com/video.mjpg" = Except.ok CaptureKind.stream ∧
    open_source "HTTP://CAM/CLIP.MP4?token=1.2" = Except.ok CaptureKind.video ∧
    open_source "img.jpeg" = Except.ok CaptureKind.image ∧
    open_source "http://example.com/stream" = Except.error "Unknown source extension" := by
  refine ⟨?_, ?_, ?_, ?_⟩ <;> decide

end SVR
